import Mathlib

/-!
Verification of `src/video_encoder.py` (an H.266/VVC transcoding front-end
around an external ffmpeg binary).

The program is shallowly embedded: the filesystem is a finite list of
(path, byte-size) entries, and every subprocess invocation is an explicit
input of type `Except` (an `Except.error` models a Python exception raised
while launching or running the subprocess; an `Except.ok` carries the text
or exit code the subprocess produced).  Python string primitives
(`str.split`, `str.strip`, `str.lower`, the `in` operator, `int`, `float`)
are modelled by structural functions on character lists so that every
definition evaluates by kernel reduction on concrete inputs.
-/

/-! ## Python string primitives -/

/-- The whitespace characters stripped by Python `str.strip()`. -/
def pySpaceChar (c : Char) : Bool :=
  c == ' ' || c == '\t' || c == '\n' || c == '\x0d' || c == '\x0b' || c == '\x0c'

/-- Python `str.strip()`: remove leading and trailing whitespace. -/
def pyTrim (s : String) : String :=
  ⟨((s.data.dropWhile pySpaceChar).reverse.dropWhile pySpaceChar).reverse⟩

/-- Python `str.lower()` on one character (ASCII letters only; the source
only ever lowercases ASCII diagnostic text before searching for "fps"). -/
def pyLowerChar (c : Char) : Char :=
  if 65 ≤ c.toNat ∧ c.toNat ≤ 90 then Char.ofNat (c.toNat + 32) else c

/-- Python `str.lower()`. -/
def pyToLower (s : String) : String := ⟨s.data.map pyLowerChar⟩

/-- Occurrence test on character lists: does `t` occur as a contiguous
sublist of the argument?  Models the Python `in` operator on strings. -/
def listContains (t : List Char) : List Char → Bool
  | [] => t.isEmpty
  | c :: rest => t.isPrefixOf (c :: rest) || listContains t rest

/-- Python `sub in s` (substring containment). -/
def pyContains (s t : String) : Bool := listContains t.data s.data

/-- Worker for `pySplit`: scan left to right, splitting at each leftmost
non-overlapping occurrence of the (non-empty) separator.  The fuel is the
length of the remaining input, which strictly bounds the recursion; the
fuel-exhausted branch is unreachable when called with `fuel = input length`
because every step consumes at least one character. -/
def pySplitList (sep : List Char) : Nat → List Char → List Char → List (List Char)
  | _, [], acc => [acc.reverse]
  | 0, l, acc => [acc.reverse ++ l]
  | fuel + 1, c :: rest, acc =>
    if sep.isPrefixOf (c :: rest) then
      acc.reverse :: pySplitList sep fuel (List.drop sep.length (c :: rest)) []
    else
      pySplitList sep fuel rest (c :: acc)

/-- Python `s.split(sep)` for a non-empty separator (the source never splits
on an empty separator, which Python rejects; we return `[s]` there). -/
def pySplit (s sep : String) : List String :=
  if sep.data.isEmpty then [s]
  else (pySplitList sep.data s.data.length s.data []).map (fun l => ⟨l⟩)

/-- Python `sep.join(parts)`. -/
def pyJoin (sep : String) : List String → String
  | [] => ""
  | [x] => x
  | x :: rest => x ++ sep ++ pyJoin sep rest

/-- Python `s.strip(ch)` for the double-quote character, as used on the
PATH directory entries in the locator. -/
def stripQuotes (s : String) : String :=
  ⟨((s.data.dropWhile (· == '\"')).reverse.dropWhile (· == '\"')).reverse⟩

/-- Decimal value of a digit string (most significant digit first). -/
def digitsVal (ds : List Char) : Nat :=
  ds.foldl (fun a c => a * 10 + (c.toNat - 48)) 0

/-- Python `int(s)`: optional surrounding whitespace, optional sign, a
non-empty run of decimal digits.  (Underscore digit separators, which the
diagnostic text never contains, are not modelled.) -/
def pyInt (s : String) : Option Int :=
  let t := (pyTrim s).data
  let p : Int × List Char :=
    match t with
    | '+' :: r => (1, r)
    | '-' :: r => (-1, r)
    | r => (1, r)
  if !p.2.isEmpty && p.2.all (·.isDigit) then some (p.1 * (digitsVal p.2 : Int)) else none

/-- Python `float(s)` on plain decimal forms: optional surrounding
whitespace, optional sign, digits with at most one decimal point and at
least one digit overall.  (Exponents, `inf`/`nan` literals and underscore
separators, which never occur in the frame-rate field, are not modelled.)
The value is represented exactly as a rational. -/
def pyFloat (s : String) : Option ℚ :=
  let t := (pyTrim s).data
  let p : ℚ × List Char :=
    match t with
    | '+' :: r => (1, r)
    | '-' :: r => (-1, r)
    | r => (1, r)
  match p.2.splitOn '.' with
  | [ip] =>
    if !ip.isEmpty && ip.all (·.isDigit) then some (p.1 * (digitsVal ip : ℚ)) else none
  | [ip, fp] =>
    if !(ip ++ fp).isEmpty && (ip ++ fp).all (·.isDigit) then
      some (p.1 * ((digitsVal ip : ℚ) + (digitsVal fp : ℚ) / 10 ^ fp.length))
    else none
  | _ => none

/-! ## Injectivity of the decimal rendering of naturals

Needed to show the output-collision loop of `encode_to_h266` always finds a
free index among the first `|filesystem| + 1` candidates. -/

/-- The decimal digit characters of `n`, most significant first; reference
implementation that `Nat.repr` is proved to agree with. -/
def reprDigits (n : Nat) : List Char :=
  if n < 10 then [Nat.digitChar n]
  else reprDigits (n / 10) ++ [Nat.digitChar (n % 10)]
termination_by n
decreasing_by omega

/-! ## Filesystem model

A finite filesystem: the list of existing files with their byte sizes.
`os.path.exists` / `Path.exists()` become `FS.existsPath`; `stat().st_size`
becomes `FS.size`. -/

abbrev FS := List (String × Nat)

/-- `Path(p).exists()` / `os.path.exists(p)` in the model. -/
def FS.existsPath (fs : FS) (p : String) : Bool :=
  fs.any (fun e => e.1 == p)

/-- `Path(p).stat().st_size` in the model (0 if the file is absent; only
ever used after an existence check). -/
def FS.size (fs : FS) (p : String) : Nat :=
  ((fs.find? (fun e => e.1 == p)).map Prod.snd).getD 0

/-! ## Output paths and the collision-resolution loop

`encode_to_h266` works with a `pathlib.Path` output; the model keeps the
parts the source uses: `parent`, `stem` and `suffix`.  `parent / name`
renders as `name` when the parent is `"."` (as `pathlib` does for plain
relative file names) and as `parent ++ "/" ++ name` otherwise. -/

structure PyPath where
  parent : String
  stem : String
  suffix : String

/-- `str(parent / name)` in the model. -/
def joinDir (parent name : String) : String :=
  if parent == "." then name else parent ++ ("/" ++ name)

/-- `str(output_path)` for the requested output path. -/
def PyPath.render (p : PyPath) : String :=
  joinDir p.parent (p.stem ++ p.suffix)

/-- The collision candidate
`output_path.parent / f"{output_path.stem}_{index}{output_path.suffix}"`
for a given index. -/
def candidate (out : PyPath) (index : Nat) : String :=
  joinDir out.parent (out.stem ++ ("_" ++ (Nat.repr index ++ out.suffix)))

/-- The `index = 1; while True: ...` search of `encode_to_h266`, run with
enough fuel.  Returns the first index `k ≥ start` whose candidate path does
not exist. -/
def findFreeIndex (fs : FS) (out : PyPath) : Nat → Nat → Option Nat
  | 0, _ => none
  | fuel + 1, k =>
    if FS.existsPath fs (candidate out k) then findFreeIndex fs out fuel (k + 1)
    else some k

/-- Lines 265–276 of the source: if the requested output path exists,
append `_1`, `_2`, … to the stem until an unused path is found.  The
unbounded source loop is run with fuel `fs.length + 1`, which
`exists_free_candidate` proves always suffices, so the fuel-exhausted
fallback branch is unreachable. -/
def resolve_output_path (fs : FS) (out : PyPath) : String :=
  if FS.existsPath fs (PyPath.render out) then
    match findFreeIndex fs out (fs.length + 1) 1 with
    | some k => candidate out k
    | none => PyPath.render out
  else PyPath.render out

/-! ## `VideoEncoder._find_ffmpeg` (source lines 56–123)

Inputs of the model: the filesystem, `os.name`, the result of the
`where`/`which` lookup subprocess (`Except.error` models the
`CalledProcessError` of a failing lookup, the only exception the source
catches there), the `PATH` environment variable already split on
`os.pathsep`, and the current working directory. -/

/-- The first path printed by the `where`/`which` lookup that is non-empty
after stripping and exists on disk (lines 58–85). -/
def which_first_existing (fs : FS) (os_name : String)
    (which_out : Except Unit String) : Option String :=
  match which_out with
  | .error _ => none
  | .ok stdout =>
    let paths := if os_name == "nt" then pySplit (pyTrim stdout) "\n" else [pyTrim stdout]
    paths.findSome? (fun p =>
      let q := pyTrim p
      if !q.data.isEmpty && FS.existsPath fs q then some q else none)

/-- The fixed fallback list of lines 88–99.  Path separators are kept as
written in the source; `Path.cwd() / "ffmpeg.exe"` uses the platform
separator. -/
def common_paths (os_name cwd : String) : List String :=
  [ "C:\\ffmpe\\ffmpeg-2024-10-21-git-baa23e40c1-full_build\\bin\\ffmpeg.exe",
    "C:\\ffmpeg\\ffmpeg-master-latest-win64-gpl\\bin\\ffmpeg.exe",
    "C:\\ffmpeg\\bin\\ffmpeg.exe",
    "C:\\Program Files\\ffmpeg\\bin\\ffmpeg.exe",
    "C:\\Program Files (x86)\\ffmpeg\\bin\\ffmpeg.exe",
    cwd ++ ((if os_name == "nt" then "\\" else "/") ++ "ffmpeg.exe"),
    "/usr/bin/ffmpeg",
    "/usr/local/bin/ffmpeg" ]

/-- The error message raised when nothing is found (lines 118–122),
carrying the `PATH` listing. -/
def ffmpeg_not_found_msg (path_env : List String) : String :=
  "無法找到 FFmpeg，請確認安裝並設定環境變數\n目前的環境變數 PATH：\n" ++
    pyJoin "\n" path_env

/-- Lines 56–123: the executable locator.  Note the `PATH`-directory scan
of lines 102–110 is guarded by `os.name == 'nt'` and therefore runs only on
Windows; the fallback-list scan of lines 113–115 runs on every platform. -/
def find_ffmpeg (fs : FS) (os_name : String) (which_out : Except Unit String)
    (path_env : List String) (cwd : String) : Except String String :=
  match which_first_existing fs os_name which_out with
  | some p => .ok p
  | none =>
    let fromPathEnv : Option String :=
      if os_name == "nt" then
        path_env.findSome? (fun d =>
          let c := stripQuotes d ++ "\\ffmpeg.exe"
          if FS.existsPath fs c then some c else none)
      else none
    match fromPathEnv with
    | some p => .ok p
    | none =>
      match (common_paths os_name cwd).find? (fun p => FS.existsPath fs p) with
      | some p => .ok p
      | none => .error (ffmpeg_not_found_msg path_env)

/-! ## `VideoEncoder.check_ffmpeg_version` (source lines 133–153) -/

/-- Python `s.split('\n')[0]`. -/
def py_first_line (s : String) : String := (pySplit s "\n").headD ""

/-- Lines 133–153: run `-version` and `-encoders`; report whether
"libvvenc" occurs in the encoders listing together with the first line of
the version output.  Each `Except.error` carries `str(e)` of an exception
raised by the corresponding `subprocess.run`; any such exception yields
`(False, str(e))`. -/
def check_ffmpeg_version (version_run encoders_run : Except String String) :
    Bool × String :=
  match version_run with
  | .error e => (false, e)
  | .ok version_stdout =>
    let version_info := py_first_line version_stdout
    match encoders_run with
    | .error e => (false, e)
    | .ok encoders_stdout => (pyContains encoders_stdout "libvvenc", version_info)

/-! ## `VideoEncoder.get_video_info` (source lines 155–212) -/

/-- The record of source lines 10–19 (`file_size` is in megabytes; Python
float division is modelled by exact rational division). -/
structure VideoInfo where
  video_stream : String := ""
  duration : String := ""
  file_size : ℚ := 0
  width : Int := 0
  height : Int := 0
  fps : ℚ := 0
  bitrate : String := ""

/-- `stderr.split("Stream #0:0")[1].split("\n")[0]` (line 176). -/
def stream_line (stderr : String) : String :=
  (pySplit ((pySplit stderr "Stream #0:0").getD 1 "") "\n").headD ""

/-- `width, height = map(int, part.strip().split("x"))` (line 184): succeeds
exactly when the stripped segment splits on "x" into two integer literals;
any `ValueError` (wrong arity or a non-integer piece) yields `none`. -/
def parse_dims (part : String) : Option (Int × Int) :=
  match pySplit (pyTrim part) "x" with
  | [a, b] =>
    match pyInt a, pyInt b with
    | some w, some h => some (w, h)
    | _, _ => none
  | _ => none

/-- One iteration of the resolution loop of lines 181–188: a segment that
contains "x" and parses overwrites the accumulated pair; otherwise the
accumulator is kept (the loop has no `break`). -/
def res_step (acc : Int × Int) (part : String) : Int × Int :=
  if pyContains part "x" then
    match parse_dims part with
    | some wh => wh
    | none => acc
  else acc

/-- The resolution loop of lines 181–188 over the comma-separated segments. -/
def parse_resolution (video_stream : String) (acc : Int × Int) : Int × Int :=
  (pySplit video_stream ",").foldl res_step acc

/-- The successfully-parsed dimension pairs among a segment list, in order. -/
def parsed_pairs (parts : List String) : List (Int × Int) :=
  parts.filterMap (fun part => if pyContains part "x" then parse_dims part else none)

/-- `video_stream.split("fps")[0].split(",")[-1].strip()` (line 193). -/
def fps_str (video_stream : String) : String :=
  pyTrim ((pySplit ((pySplit video_stream "fps").headD "") ",").getLastD "")

/-- One iteration of the bitrate loop of lines 199–202 (again no `break`:
the last segment containing "kb/s" wins). -/
def bitrate_step (acc : String) (part : String) : String :=
  if pyContains part "kb/s" then pyTrim part else acc

/-- The bitrate loop of lines 199–202. -/
def parse_bitrate (video_stream : String) (acc : String) : String :=
  (pySplit video_stream ",").foldl bitrate_step acc

/-- `stderr.split("Duration:")[1].split(",")[0].strip()` (line 206). -/
def parse_duration (stderr : String) : String :=
  pyTrim ((pySplit ((pySplit stderr "Duration:").getD 1 "") ",").headD "")

/-- Lines 180–188: the resolution extraction, guarded by `"x" in
video_stream`. -/
def width_update (video_stream : String) (a : VideoInfo) : VideoInfo :=
  if pyContains video_stream "x" then
    let wh := parse_resolution video_stream (a.width, a.height)
    { a with width := wh.1, height := wh.2 }
  else a

/-- Lines 191–196: the frame-rate extraction; a `ValueError` from `float`
leaves the field untouched. -/
def fps_update (video_stream : String) (b : VideoInfo) : VideoInfo :=
  if pyContains (pyToLower video_stream) "fps" then
    match pyFloat (fps_str video_stream) with
    | some v => { b with fps := v }
    | none => b
  else b

/-- Lines 198–202: the bitrate extraction. -/
def bitrate_update (video_stream : String) (c : VideoInfo) : VideoInfo :=
  if pyContains video_stream "kb/s" then
    { c with bitrate := parse_bitrate video_stream c.bitrate }
  else c

/-- Lines 174–202: the `Stream #0:0` block — stream descriptor, resolution,
frame rate and bitrate, in source order. -/
def stream_update (stderr : String) (info0 : VideoInfo) : VideoInfo :=
  if pyContains stderr "Stream #0:0" then
    let video_stream := stream_line stderr
    bitrate_update video_stream (fps_update video_stream
      (width_update video_stream { info0 with video_stream := pyTrim video_stream }))
  else info0

/-- Lines 204–207: the duration extraction. -/
def duration_update (stderr : String) (info1 : VideoInfo) : VideoInfo :=
  if pyContains stderr "Duration:" then
    { info1 with duration := parse_duration stderr }
  else info1

/-- Lines 174–207: scrape the diagnostic text.  Every field extraction is
guarded and failure leaves the field untouched; the whole function is
total. -/
def parse_stderr (stderr : String) (info0 : VideoInfo) : VideoInfo :=
  duration_update stderr (stream_update stderr info0)

/-- Lines 155–212: raise `FileNotFoundError` when the file is absent;
otherwise record the byte size (scaled to MB) from the filesystem, run
`ffmpeg -i` (the `probe` input models that subprocess: `Except.error` is an
exception raised by the call, `Except.ok` carries the diagnostic stderr
text), and scrape the text.  An exception leaves the partially-populated
record, which at that point holds only the file size. -/
def get_video_info (fs : FS) (video_path : String) (probe : Except String String) :
    Except String VideoInfo :=
  if FS.existsPath fs video_path then
    let info : VideoInfo := { file_size := (FS.size fs video_path : ℚ) / (1024 * 1024) }
    match probe with
    | .ok stderr => .ok (parse_stderr stderr info)
    | .error _ => .ok info
  else
    .error ("找不到視訊檔案: " ++ video_path)

/-! ## `VideoEncoder.encode_to_h266` (source lines 214–315) -/

/-- The errors the function can raise (lines 236 and 239). -/
inductive EncodeErr where
  | fileNotFound (msg : String)
  | valueError (msg : String)

/-- Line 32. -/
def VALID_PRESETS : List String := ["faster", "fast", "medium", "slow", "slower"]

/-- Lines 241–263: the argument list up to (and excluding) the output path.
With `gpu`, the hardware-acceleration flags precede the input file. -/
def build_command (ffmpeg_path input_path : String) (qp threads : Int)
    (preset : String) (gpu : Bool) : List String :=
  (if gpu then [ffmpeg_path, "-hwaccel", "auto", "-i", input_path]
   else [ffmpeg_path, "-i", input_path]) ++
  ["-c:v", "libvvenc", "-qp", toString qp, "-preset", preset,
   "-threads", toString threads, "-c:a", "aac", "-b:a", "128k"]

/-- What lines 234–278 produce before the subprocess is launched: the full
argument list (output path appended) and the collision-resolved output. -/
structure EncodePlan where
  command : List String
  resolved_output : String

/-- Lines 234–278: validation, command construction and output-collision
resolution — everything that happens before `subprocess.Popen`. -/
def encode_plan (fs : FS) (ffmpeg_path input_path : String) (output_path : PyPath)
    (qp threads : Int) (preset : String) (gpu : Bool) : Except EncodeErr EncodePlan :=
  if FS.existsPath fs input_path then
    if preset ∈ VALID_PRESETS then
      let out := resolve_output_path fs output_path
      .ok ⟨build_command ffmpeg_path input_path qp threads preset gpu ++ [out], out⟩
    else
      .error (.valueError ("無效的預設值: " ++ preset ++ "。有效值為: " ++
        pyJoin ", " VALID_PRESETS))
  else
    .error (.fileNotFound ("找不到輸入檔案: " ++ input_path))

/-- Lines 280–315: the `try` block around `subprocess.Popen` and the
streaming loop.  The `launch` input models the whole subprocess execution:
`Except.ok code` is a completed child with that exit code, `Except.error`
any exception raised during setup or execution — which the source converts
to a `False` return.  Success is exit code 0. -/
def encode_run_result (launch_result : Except String Int) : Bool :=
  match launch_result with
  | .ok code => code == 0
  | .error _ => false

/-- Lines 214–315: the whole transcode entry point. -/
def encode_to_h266 (fs : FS) (ffmpeg_path input_path : String) (output_path : PyPath)
    (qp threads : Int) (preset : String) (gpu : Bool)
    (launch : List String → Except String Int) : Except EncodeErr Bool :=
  match encode_plan fs ffmpeg_path input_path output_path qp threads preset gpu with
  | .error e => .error e
  | .ok plan => .ok (encode_run_result (launch plan.command))

/-! ## Supporting lemmas -/

lemma toDigitsCore_eq_reprDigits (f : Nat) : ∀ (n : Nat) (acc : List Char), n < f →
    Nat.toDigitsCore 10 f n acc = reprDigits n ++ acc := by
  induction f with
  | zero => exact fun n acc h => absurd h (Nat.not_lt_zero n)
  | succ f ih =>
    intro n acc h
    simp only [Nat.toDigitsCore]
    by_cases h0 : n / 10 = 0
    · rw [if_pos h0]
      conv_rhs => rw [reprDigits]
      rw [if_pos (show n < 10 by omega), Nat.mod_eq_of_lt (show n < 10 by omega)]
      rfl
    · have hlt : n / 10 < f := by omega
      rw [if_neg h0, ih (n / 10) _ hlt]
      conv_rhs => rw [reprDigits]
      rw [if_neg (show ¬n < 10 by omega), List.append_assoc]
      rfl

lemma repr_eq_reprDigits (n : Nat) : Nat.repr n = (reprDigits n).asString := by
  show (Nat.toDigits 10 n).asString = (reprDigits n).asString
  rw [Nat.toDigits, toDigitsCore_eq_reprDigits (n + 1) n [] (Nat.lt_succ_self n),
    List.append_nil]

lemma digitChar_toNat_sub (d : Nat) (h : d < 10) : (Nat.digitChar d).toNat - 48 = d := by
  interval_cases d <;> rfl

lemma digitsVal_append_single (l : List Char) (c : Char) :
    digitsVal (l ++ [c]) = digitsVal l * 10 + (c.toNat - 48) := by
  simp [digitsVal, List.foldl_append]

lemma digitsVal_reprDigits (n : Nat) : digitsVal (reprDigits n) = n := by
  induction n using Nat.strong_induction_on with
  | _ n ih =>
    rw [reprDigits]
    by_cases h : n < 10
    · rw [if_pos h]
      show 0 * 10 + ((Nat.digitChar n).toNat - 48) = n
      rw [digitChar_toNat_sub n h]
      omega
    · rw [if_neg h, digitsVal_append_single, ih (n / 10) (by omega),
        digitChar_toNat_sub (n % 10) (by omega)]
      omega

lemma string_data_inj {s t : String} (h : s.data = t.data) : s = t := by
  cases s
  cases t
  exact congrArg String.mk (by simpa using h)

lemma nat_repr_injective : Function.Injective Nat.repr := by
  intro m n h
  rw [repr_eq_reprDigits, repr_eq_reprDigits] at h
  have h2 : reprDigits m = reprDigits n := congrArg String.data h
  have h3 := congrArg digitsVal h2
  rwa [digitsVal_reprDigits, digitsVal_reprDigits] at h3

lemma append_middle_inj {pre post x y : String}
    (h : pre ++ (x ++ post) = pre ++ (y ++ post)) : x = y := by
  apply string_data_inj
  have hd : pre.data ++ (x.data ++ post.data) = pre.data ++ (y.data ++ post.data) := by
    have h2 := congrArg String.data h
    simpa [String.data_append] using h2
  exact List.append_cancel_right (List.append_cancel_left hd)

lemma existsPath_iff_mem_map {fs : FS} {p : String} :
    FS.existsPath fs p = true ↔ p ∈ fs.map Prod.fst := by
  simp only [FS.existsPath, List.any_eq_true, List.mem_map, beq_iff_eq]

lemma candidate_injective (out : PyPath) : Function.Injective (candidate out) := by
  intro a b h
  unfold candidate joinDir at h
  have h2 : out.stem ++ ("_" ++ (Nat.repr a ++ out.suffix)) =
      out.stem ++ ("_" ++ (Nat.repr b ++ out.suffix)) := by
    by_cases hp : out.parent == "."
    · simpa [hp] using h
    · rw [if_neg hp, if_neg hp] at h
      have h3 := congrArg String.data h
      simp only [String.data_append] at h3
      exact string_data_inj (List.append_cancel_left (List.append_cancel_left h3))
  have h4 := congrArg String.data h2
  simp only [String.data_append] at h4
  have h5 := List.append_cancel_left (List.append_cancel_left h4)
  exact nat_repr_injective (string_data_inj (List.append_cancel_right h5))

/-- Among the first `fs.length + 1` collision candidates, at least one does
not exist: the candidates are pairwise distinct paths and the filesystem
has only `fs.length` entries, so the unbounded `while True` search of the
source always terminates within that bound. -/
lemma exists_free_candidate (fs : FS) (out : PyPath) :
    ∃ m, m < fs.length + 1 ∧ FS.existsPath fs (candidate out (m + 1)) = false := by
  by_contra hc
  push_neg at hc
  have hmem : ∀ m, m < fs.length + 1 → candidate out (m + 1) ∈ fs.map Prod.fst := by
    intro m hm
    have := hc m hm
    exact existsPath_iff_mem_map.mp (by
      cases hb : FS.existsPath fs (candidate out (m + 1)) with
      | false => exact absurd hb this
      | true => rfl)
  have hinj : Function.Injective (fun m : Nat => candidate out (m + 1)) := by
    intro a b hab
    have := candidate_injective out hab
    omega
  have hnodup : ((List.range (fs.length + 1)).map
      (fun m => candidate out (m + 1))).Nodup :=
    (List.nodup_range _).map hinj
  have hsub : ((List.range (fs.length + 1)).map (fun m => candidate out (m + 1))) ⊆
      fs.map Prod.fst := by
    intro x hx
    rcases List.mem_map.mp hx with ⟨m, hm, rfl⟩
    exact hmem m (List.mem_range.mp hm)
  have hle := (List.subperm_of_subset hnodup hsub).length_le
  simp only [List.length_map, List.length_range] at hle
  omega

lemma findFreeIndex_sound (fs : FS) (out : PyPath) :
    ∀ (fuel start k : Nat), findFreeIndex fs out fuel start = some k →
      start ≤ k ∧ FS.existsPath fs (candidate out k) = false ∧
        ∀ j, start ≤ j → j < k → FS.existsPath fs (candidate out j) = true := by
  intro fuel
  induction fuel with
  | zero => intro start k h; exact absurd h (by simp [findFreeIndex])
  | succ fuel ih =>
    intro start k h
    rw [findFreeIndex] at h
    by_cases hex : FS.existsPath fs (candidate out start) = true
    · rw [if_pos hex] at h
      obtain ⟨h1, h2, h3⟩ := ih (start + 1) k h
      refine ⟨by omega, h2, fun j hj1 hj2 => ?_⟩
      by_cases hjs : j = start
      · exact hjs ▸ hex
      · exact h3 j (by omega) hj2
    · rw [if_neg hex] at h
      obtain rfl : start = k := by simpa using h
      exact ⟨le_refl _, by simpa using hex, fun j hj1 hj2 => absurd (lt_of_le_of_lt hj1 hj2) (lt_irrefl _)⟩

lemma findFreeIndex_complete (fs : FS) (out : PyPath) :
    ∀ (fuel m start : Nat), m < fuel →
      FS.existsPath fs (candidate out (start + m)) = false →
      (findFreeIndex fs out fuel start).isSome := by
  intro fuel
  induction fuel with
  | zero => intro m start h; omega
  | succ fuel ih =>
    intro m start hm hfree
    rw [findFreeIndex]
    by_cases hex : FS.existsPath fs (candidate out start) = true
    · rw [if_pos hex]
      have hm0 : m ≠ 0 := by
        intro h0
        rw [h0] at hfree
        simp only [Nat.add_zero] at hfree
        rw [hfree] at hex
        cases hex
      exact ih (m - 1) (start + 1) (by omega)
        (by rw [show start + 1 + (m - 1) = start + m by omega]; exact hfree)
    · rw [if_neg hex]
      rfl

/-- When the requested output path exists, the resolved path is the
candidate at the least index `k ≥ 1` whose path does not exist. -/
lemma resolve_output_path_least (fs : FS) (out : PyPath)
    (hex : FS.existsPath fs (PyPath.render out) = true) :
    ∃ k, 1 ≤ k ∧ resolve_output_path fs out = candidate out k ∧
      FS.existsPath fs (candidate out k) = false ∧
      ∀ j, 1 ≤ j → j < k → FS.existsPath fs (candidate out j) = true := by
  obtain ⟨m, hm, hfree⟩ := exists_free_candidate fs out
  have hsome := findFreeIndex_complete fs out (fs.length + 1) m 1 hm
    (by rw [Nat.add_comm 1 m]; exact hfree)
  cases hfind : findFreeIndex fs out (fs.length + 1) 1 with
  | none => rw [hfind] at hsome; cases hsome
  | some k =>
    obtain ⟨h1, h2, h3⟩ := findFreeIndex_sound fs out (fs.length + 1) 1 k hfind
    exact ⟨k, h1, by rw [resolve_output_path, if_pos hex, hfind], h2, h3⟩

lemma width_update_file_size (vs : String) (a : VideoInfo) :
    (width_update vs a).file_size = a.file_size := by
  rw [width_update]
  by_cases hx : pyContains vs "x" = true
  · rw [if_pos hx]
  · rw [if_neg hx]

lemma width_update_width_height (vs : String) (a : VideoInfo)
    (hx : pyContains vs "x" = true) :
    ((width_update vs a).width, (width_update vs a).height) =
      parse_resolution vs (a.width, a.height) := by
  rw [width_update, if_pos hx]

lemma fps_update_file_size (vs : String) (b : VideoInfo) :
    (fps_update vs b).file_size = b.file_size := by
  rw [fps_update]
  by_cases hf : pyContains (pyToLower vs) "fps" = true
  · rw [if_pos hf]
    cases pyFloat (fps_str vs) <;> rfl
  · rw [if_neg hf]

lemma fps_update_width_height (vs : String) (b : VideoInfo) :
    (fps_update vs b).width = b.width ∧ (fps_update vs b).height = b.height := by
  rw [fps_update]
  by_cases hf : pyContains (pyToLower vs) "fps" = true
  · rw [if_pos hf]
    cases pyFloat (fps_str vs) <;> exact ⟨rfl, rfl⟩
  · rw [if_neg hf]
    exact ⟨rfl, rfl⟩

lemma bitrate_update_file_size (vs : String) (c : VideoInfo) :
    (bitrate_update vs c).file_size = c.file_size := by
  rw [bitrate_update]
  by_cases hb : pyContains vs "kb/s" = true
  · rw [if_pos hb]
  · rw [if_neg hb]

lemma bitrate_update_width_height (vs : String) (c : VideoInfo) :
    (bitrate_update vs c).width = c.width ∧ (bitrate_update vs c).height = c.height := by
  rw [bitrate_update]
  by_cases hb : pyContains vs "kb/s" = true
  · rw [if_pos hb]
    exact ⟨rfl, rfl⟩
  · rw [if_neg hb]
    exact ⟨rfl, rfl⟩

lemma duration_update_file_size (stderr : String) (i : VideoInfo) :
    (duration_update stderr i).file_size = i.file_size := by
  rw [duration_update]
  by_cases hd : pyContains stderr "Duration:" = true
  · rw [if_pos hd]
  · rw [if_neg hd]

lemma duration_update_width_height (stderr : String) (i : VideoInfo) :
    (duration_update stderr i).width = i.width ∧
      (duration_update stderr i).height = i.height := by
  rw [duration_update]
  by_cases hd : pyContains stderr "Duration:" = true
  · rw [if_pos hd]
    exact ⟨rfl, rfl⟩
  · rw [if_neg hd]
    exact ⟨rfl, rfl⟩

lemma stream_update_file_size (stderr : String) (info0 : VideoInfo) :
    (stream_update stderr info0).file_size = info0.file_size := by
  rw [stream_update]
  by_cases hs : pyContains stderr "Stream #0:0" = true
  · rw [if_pos hs]
    rw [bitrate_update_file_size, fps_update_file_size, width_update_file_size]
  · rw [if_neg hs]

lemma parse_stderr_file_size (stderr : String) (info0 : VideoInfo) :
    (parse_stderr stderr info0).file_size = info0.file_size := by
  rw [parse_stderr, duration_update_file_size, stream_update_file_size]

lemma parse_stderr_width_height (stderr : String) (info0 : VideoInfo)
    (hs : pyContains stderr "Stream #0:0" = true)
    (hx : pyContains (stream_line stderr) "x" = true) :
    ((parse_stderr stderr info0).width, (parse_stderr stderr info0).height) =
      parse_resolution (stream_line stderr) (info0.width, info0.height) := by
  rw [parse_stderr]
  obtain ⟨hd1, hd2⟩ := duration_update_width_height stderr (stream_update stderr info0)
  rw [hd1, hd2, stream_update, if_pos hs]
  obtain ⟨hb1, hb2⟩ := bitrate_update_width_height (stream_line stderr)
    (fps_update (stream_line stderr) (width_update (stream_line stderr)
      { info0 with video_stream := pyTrim (stream_line stderr) }))
  rw [hb1, hb2]
  obtain ⟨hf1, hf2⟩ := fps_update_width_height (stream_line stderr)
    (width_update (stream_line stderr) { info0 with video_stream := pyTrim (stream_line stderr) })
  rw [hf1, hf2]
  exact width_update_width_height (stream_line stderr) _ hx

lemma parse_stderr_no_markers (stderr : String) (info0 : VideoInfo)
    (hs : pyContains stderr "Stream #0:0" = false)
    (hd : pyContains stderr "Duration:" = false) :
    parse_stderr stderr info0 = info0 := by
  rw [parse_stderr, stream_update, if_neg (by simp [hs]), duration_update,
    if_neg (by simp [hd])]

lemma foldl_res_step_eq (parts : List String) (acc : Int × Int) :
    parts.foldl res_step acc = (parsed_pairs parts).getLastD acc := by
  induction parts generalizing acc with
  | nil => rfl
  | cons part rest ih =>
    by_cases hx : pyContains part "x" = true
    · cases hd : parse_dims part with
      | none =>
        have h1 : res_step acc part = acc := by simp [res_step, hx, hd]
        have h2 : parsed_pairs (part :: rest) = parsed_pairs rest := by
          simp [parsed_pairs, List.filterMap_cons, hx, hd]
        rw [List.foldl_cons, h1, h2, ih]
      | some wh =>
        have h1 : res_step acc part = wh := by simp [res_step, hx, hd]
        have h2 : parsed_pairs (part :: rest) = wh :: parsed_pairs rest := by
          simp [parsed_pairs, List.filterMap_cons, hx, hd]
        rw [List.foldl_cons, h1, h2, ih, List.getLastD_cons]
    · have h1 : res_step acc part = acc := by simp [res_step, hx]
      have h2 : parsed_pairs (part :: rest) = parsed_pairs rest := by
        simp [parsed_pairs, List.filterMap_cons, hx]
      rw [List.foldl_cons, h1, h2, ih]

lemma pathenv_scan_eq (fs : FS) (l : List String) :
    (l.findSome? fun d =>
        if FS.existsPath fs (stripQuotes d ++ "\\ffmpeg.exe") then
          some (stripQuotes d ++ "\\ffmpeg.exe")
        else none) =
      (l.map fun d => stripQuotes d ++ "\\ffmpeg.exe").find? fun c => FS.existsPath fs c := by
  induction l with
  | nil => rfl
  | cons d rest ih =>
    by_cases hex : FS.existsPath fs (stripQuotes d ++ "\\ffmpeg.exe") = true
    · simp [List.findSome?_cons, List.find?, hex]
    · simp [List.findSome?_cons, List.find?, hex, ih]

/-! ## The claims -/

/-- C1: For a call `encode_to_h266(input_path="sample.mov", output_path=p,
qp=32, threads=4, preset="medium", gpu=False)` where `sample.mov` exists,
the constructed command argument list is exactly, in order: the resolved
executable path, `-i`, `sample.mov`, `-c:v`, `libvvenc`, `-qp`, `32`,
`-preset`, `medium`, `-threads`, `4`, `-c:a`, `aac`, `-b:a`, `128k`, then
the resolved output path, with no hardware-acceleration flag present
anywhere in the list (the two variable entries, the executable path and the
resolved output, are of course assumed not to themselves be the literal
string `-hwaccel`). -/
theorem c1_command_exact (fs : FS) (ffmpeg_path : String) (output_path : PyPath)
    (hin : FS.existsPath fs "sample.mov" = true) :
    ∃ plan, encode_plan fs ffmpeg_path "sample.mov" output_path 32 4 "medium" false =
        .ok plan ∧
      plan.command = [ffmpeg_path, "-i", "sample.mov", "-c:v", "libvvenc", "-qp", "32",
        "-preset", "medium", "-threads", "4", "-c:a", "aac", "-b:a", "128k",
        plan.resolved_output] ∧
      (ffmpeg_path ≠ "-hwaccel" → plan.resolved_output ≠ "-hwaccel" →
        "-hwaccel" ∉ plan.command) := by
  have hplan : encode_plan fs ffmpeg_path "sample.mov" output_path 32 4 "medium" false =
      .ok ⟨build_command ffmpeg_path "sample.mov" 32 4 "medium" false ++
        [resolve_output_path fs output_path], resolve_output_path fs output_path⟩ := by
    rw [encode_plan, if_pos hin, if_pos (by decide)]
  refine ⟨_, hplan, rfl, ?_⟩
  intro h1 h2 hmem
  have hmem2 : "-hwaccel" ∈ [ffmpeg_path, "-i", "sample.mov", "-c:v", "libvvenc", "-qp",
      "32", "-preset", "medium", "-threads", "4", "-c:a", "aac", "-b:a", "128k",
      resolve_output_path fs output_path] := hmem
  simp only [List.mem_cons, List.not_mem_nil, or_false] at hmem2
  rcases hmem2 with h | h | h | h | h | h | h | h | h | h | h | h | h | h | h | h <;>
    first
      | exact h1 h.symm
      | exact h2 h.symm
      | exact absurd h (by decide)

/-- C1 witness: the theorem applied to a one-file filesystem. -/
theorem c1_command_exact_witness :
    ∃ plan, encode_plan [("sample.mov", 0)] "/usr/bin/ffmpeg" "sample.mov"
        ⟨".", "out", ".mp4"⟩ 32 4 "medium" false = .ok plan ∧
      plan.command = ["/usr/bin/ffmpeg", "-i", "sample.mov", "-c:v", "libvvenc", "-qp",
        "32", "-preset", "medium", "-threads", "4", "-c:a", "aac", "-b:a", "128k",
        plan.resolved_output] ∧
      ("/usr/bin/ffmpeg" ≠ "-hwaccel" → plan.resolved_output ≠ "-hwaccel" →
        "-hwaccel" ∉ plan.command) :=
  c1_command_exact [("sample.mov", 0)] "/usr/bin/ffmpeg" ⟨".", "out", ".mp4"⟩ (by decide)

/-- C5: Given an existing input and a valid preset, `encode_to_h266`
returns true if the launched subprocess exits with code 0, false on any
nonzero exit code, and false (rather than propagating) on any exception
arising during subprocess setup or execution. -/
theorem c5_subprocess_outcome (fs : FS) (ffmpeg_path input_path : String)
    (output_path : PyPath) (qp threads : Int) (preset : String) (gpu : Bool)
    (launch : List String → Except String Int)
    (hin : FS.existsPath fs input_path = true) (hpre : preset ∈ VALID_PRESETS) :
    ∃ plan, encode_plan fs ffmpeg_path input_path output_path qp threads preset gpu =
        .ok plan ∧
      (launch plan.command = .ok 0 →
        encode_to_h266 fs ffmpeg_path input_path output_path qp threads preset gpu
          launch = .ok true) ∧
      (∀ code, code ≠ 0 → launch plan.command = .ok code →
        encode_to_h266 fs ffmpeg_path input_path output_path qp threads preset gpu
          launch = .ok false) ∧
      (∀ e, launch plan.command = .error e →
        encode_to_h266 fs ffmpeg_path input_path output_path qp threads preset gpu
          launch = .ok false) := by
  have hplan : encode_plan fs ffmpeg_path input_path output_path qp threads preset gpu =
      .ok ⟨build_command ffmpeg_path input_path qp threads preset gpu ++
        [resolve_output_path fs output_path], resolve_output_path fs output_path⟩ := by
    rw [encode_plan, if_pos hin, if_pos hpre]
  refine ⟨_, hplan, fun h0 => ?_, fun code hc hcode => ?_, fun e he => ?_⟩
  · simp [encode_to_h266, hplan, h0, encode_run_result]
  · simp [encode_to_h266, hplan, hcode, encode_run_result, beq_iff_eq, hc]
  · simp [encode_to_h266, hplan, he, encode_run_result]

/-- C5 witness: a stubbed subprocess exiting 0 yields a `true` return. -/
theorem c5_subprocess_outcome_witness :
    encode_to_h266 [("in.mov", 0)] "/usr/bin/ffmpeg" "in.mov" ⟨".", "o", ".mp4"⟩
      32 4 "medium" false (fun _ => Except.ok 0) = .ok true := by
  obtain ⟨plan, hp, h1, h2, h3⟩ := c5_subprocess_outcome [("in.mov", 0)] "/usr/bin/ffmpeg"
    "in.mov" ⟨".", "o", ".mp4"⟩ 32 4 "medium" false (fun _ => Except.ok 0)
    (by decide) (by decide)
  exact h1 rfl

/-- C6: For every existing input path and every preset outside
`{faster, fast, medium, slow, slower}`, `encode_to_h266` raises
`ValueError` before any subprocess is launched (the result does not depend
on the subprocess model at all), for all `qp`, `threads` and `gpu`. -/
theorem c6_invalid_preset (fs : FS) (ffmpeg_path input_path : String)
    (output_path : PyPath) (qp threads : Int) (preset : String) (gpu : Bool)
    (launch : List String → Except String Int)
    (hin : FS.existsPath fs input_path = true) (hpre : preset ∉ VALID_PRESETS) :
    encode_to_h266 fs ffmpeg_path input_path output_path qp threads preset gpu launch =
      .error (.valueError ("無效的預設值: " ++ preset ++ "。有效值為: " ++
        pyJoin ", " VALID_PRESETS)) := by
  have hplan : encode_plan fs ffmpeg_path input_path output_path qp threads preset gpu =
      .error (.valueError ("無效的預設值: " ++ preset ++ "。有效值為: " ++
        pyJoin ", " VALID_PRESETS)) := by
    rw [encode_plan, if_pos hin, if_neg hpre]
  simp [encode_to_h266, hplan]

/-- C6 witness: preset "ultra" is rejected whatever the subprocess would do. -/
theorem c6_invalid_preset_witness :
    encode_to_h266 [("in.mov", 0)] "/usr/bin/ffmpeg" "in.mov" ⟨".", "o", ".mp4"⟩
      32 4 "ultra" false (fun _ => Except.ok 0) =
      .error (.valueError ("無效的預設值: " ++ "ultra" ++ "。有效值為: " ++
        pyJoin ", " VALID_PRESETS)) :=
  c6_invalid_preset [("in.mov", 0)] "/usr/bin/ffmpeg" "in.mov" ⟨".", "o", ".mp4"⟩
    32 4 "ultra" false (fun _ => Except.ok 0) (by decide) (by decide)

/-- C9: In `encode_to_h266` the input-existence check precedes preset
validation: whenever the input path does not exist, `FileNotFoundError` is
raised whatever the preset (valid or not), so `ValueError` is reachable
only for existing inputs. -/
theorem c9_input_check_first (fs : FS) (ffmpeg_path input_path : String)
    (output_path : PyPath) (qp threads : Int) (preset : String) (gpu : Bool)
    (launch : List String → Except String Int)
    (hin : FS.existsPath fs input_path = false) :
    encode_to_h266 fs ffmpeg_path input_path output_path qp threads preset gpu launch =
      .error (.fileNotFound ("找不到輸入檔案: " ++ input_path)) := by
  have hplan : encode_plan fs ffmpeg_path input_path output_path qp threads preset gpu =
      .error (.fileNotFound ("找不到輸入檔案: " ++ input_path)) := by
    rw [encode_plan, if_neg (by simp [hin])]
  simp [encode_to_h266, hplan]

/-- C9 witness: a missing input with an invalid preset still reports the
missing file, not the invalid preset. -/
theorem c9_input_check_first_witness :
    encode_to_h266 [] "/usr/bin/ffmpeg" "nope.mov" ⟨".", "o", ".mp4"⟩ 32 4 "ultra" true
      (fun _ => Except.ok 0) =
      .error (.fileNotFound ("找不到輸入檔案: " ++ "nope.mov")) :=
  c9_input_check_first [] "/usr/bin/ffmpeg" "nope.mov" ⟨".", "o", ".mp4"⟩ 32 4 "ultra"
    true (fun _ => Except.ok 0) (by decide)

/-- C7: `get_video_info` raises `FileNotFoundError` exactly when the file
does not exist; for an existing file it always returns a record, whatever
the subprocess did; and diagnostic text lacking both markers leaves every
field at its default except the file size. -/
theorem c7_inspect_total (fs : FS) (p : String) (probe : Except String String) :
    (FS.existsPath fs p = false →
      get_video_info fs p probe = .error ("找不到視訊檔案: " ++ p)) ∧
    (FS.existsPath fs p = true → ∃ info, get_video_info fs p probe = .ok info) ∧
    (∀ stderr, FS.existsPath fs p = true → probe = .ok stderr →
      pyContains stderr "Stream #0:0" = false → pyContains stderr "Duration:" = false →
      get_video_info fs p probe =
        .ok { file_size := (FS.size fs p : ℚ) / (1024 * 1024) }) := by
  refine ⟨fun hne => ?_, fun hex => ?_, fun stderr hex hp hs hd => ?_⟩
  · rw [get_video_info, if_neg (by simp [hne])]
  · rw [get_video_info, if_pos hex]
    cases probe with
    | ok stderr => exact ⟨_, rfl⟩
    | error e => exact ⟨_, rfl⟩
  · subst hp
    rw [get_video_info, if_pos hex]
    show Except.ok (parse_stderr stderr { file_size := (FS.size fs p : ℚ) / (1024 * 1024) }) = _
    rw [parse_stderr_no_markers stderr _ hs hd]

/-- C7 witness: the three parts at concrete inputs — a missing file, an
existing file whose probe raised, and marker-free diagnostic text. -/
theorem c7_inspect_total_witness :
    get_video_info [("v.mp4", 0)] "missing.mp4" (.error "boom") =
      .error ("找不到視訊檔案: " ++ "missing.mp4") ∧
    (∃ info, get_video_info [("v.mp4", 0)] "v.mp4" (.error "boom") = .ok info) ∧
    get_video_info [("v.mp4", 0)] "v.mp4" (.ok "hello world") =
      .ok { file_size := (FS.size [("v.mp4", 0)] "v.mp4" : ℚ) / (1024 * 1024) } :=
  ⟨(c7_inspect_total [("v.mp4", 0)] "missing.mp4" (.error "boom")).1 (by decide),
   (c7_inspect_total [("v.mp4", 0)] "v.mp4" (.error "boom")).2.1 (by decide),
   (c7_inspect_total [("v.mp4", 0)] "v.mp4" (.ok "hello world")).2.2 "hello world"
     (by decide) rfl (by decide) (by decide)⟩

/-- C10: For every existing file the returned record's `file_size` is the
byte size divided by 1024·1024, whatever the probe subprocess did —
including when it raised or its output matched no marker. -/
theorem c10_file_size_always (fs : FS) (p : String) (probe : Except String String)
    (hex : FS.existsPath fs p = true) :
    ∃ info, get_video_info fs p probe = .ok info ∧
      info.file_size = (FS.size fs p : ℚ) / (1024 * 1024) := by
  rw [get_video_info, if_pos hex]
  cases probe with
  | ok stderr => exact ⟨_, rfl, by rw [parse_stderr_file_size]⟩
  | error e => exact ⟨_, rfl, rfl⟩

/-- C10 witness: a failing probe still reports the true file size. -/
theorem c10_file_size_always_witness :
    ∃ info, get_video_info [("v.mp4", 1048576)] "v.mp4" (.error "boom") = .ok info ∧
      info.file_size = (FS.size [("v.mp4", 1048576)] "v.mp4" : ℚ) / (1024 * 1024) :=
  c10_file_size_always [("v.mp4", 1048576)] "v.mp4" (.error "boom") (by decide)

/-- C8: `check_ffmpeg_version` returns `(true, first version line)` exactly
when "libvvenc" occurs in the encoders listing, `(false, first version
line)` otherwise, and `(false, the error text)` when either subprocess
invocation raises. -/
theorem c8_capability_check (version_stdout encoders_stdout err : String) :
    ((check_ffmpeg_version (.ok version_stdout) (.ok encoders_stdout)).1 = true ↔
      pyContains encoders_stdout "libvvenc" = true) ∧
    (check_ffmpeg_version (.ok version_stdout) (.ok encoders_stdout)).2 =
      py_first_line version_stdout ∧
    (∀ er : Except String String, check_ffmpeg_version (.error err) er = (false, err)) ∧
    check_ffmpeg_version (.ok version_stdout) (.error err) = (false, err) :=
  ⟨Iff.rfl, rfl, fun _ => rfl, rfl⟩

/-- C2 counterexample: the claim says the first successfully-parsed
dimension pair wins.  On a stream line whose comma-separated segments parse
as (2, 3) and then (4, 5) — first parsed pair (2, 3) — the code stores
width 4 and height 5: the loop of lines 181–188 has no `break`, so the last
parsed pair overwrites the first. -/
theorem c2_first_pair_counterexample :
    parsed_pairs (pySplit (stream_line "Stream #0:0: A, 2x3, 4x5") ",") =
      [(2, 3), (4, 5)] ∧
    (get_video_info [("v.mp4", 0)] "v.mp4"
        (.ok "Stream #0:0: A, 2x3, 4x5")).toOption.map VideoInfo.width = some 4 ∧
    (get_video_info [("v.mp4", 0)] "v.mp4"
        (.ok "Stream #0:0: A, 2x3, 4x5")).toOption.map VideoInfo.height = some 5 :=
  ⟨rfl, rfl, rfl⟩

/-- C2 amended: for every diagnostic text whose stream-descriptor line
contains comma-separated segments of which at least one parses as an
"x"-delimited integer pair, the stored width and height are those of the
last successfully-parsed pair. -/
theorem c2_last_pair_wins (fs : FS) (p stderr : String)
    (hex : FS.existsPath fs p = true)
    (hs : pyContains stderr "Stream #0:0" = true)
    (hx : pyContains (stream_line stderr) "x" = true)
    (w h : Int)
    (hlast : (parsed_pairs (pySplit (stream_line stderr) ",")).getLast? = some (w, h)) :
    ∃ info, get_video_info fs p (.ok stderr) = .ok info ∧
      info.width = w ∧ info.height = h := by
  refine ⟨parse_stderr stderr { file_size := (FS.size fs p : ℚ) / (1024 * 1024) }, ?_, ?_⟩
  · rw [get_video_info, if_pos hex]
  · have hwh := parse_stderr_width_height stderr
      { file_size := (FS.size fs p : ℚ) / (1024 * 1024) } hs hx
    rw [parse_resolution, foldl_res_step_eq, List.getLastD_eq_getLast?, hlast] at hwh
    simp only [Option.getD_some] at hwh
    exact ⟨congrArg Prod.fst hwh, congrArg Prod.snd hwh⟩

/-- C2 witness: the amended theorem applied to the two-pair stream line. -/
theorem c2_last_pair_wins_witness :
    ∃ info, get_video_info [("v.mp4", 0)] "v.mp4"
        (.ok "Stream #0:0: A, 2x3, 4x5") = .ok info ∧
      info.width = 4 ∧ info.height = 5 :=
  c2_last_pair_wins [("v.mp4", 0)] "v.mp4" "Stream #0:0: A, 2x3, 4x5"
    (by decide) (by decide) (by decide) 4 5 (by decide)

/-- C3 counterexample: the claim says the `PATH`-directory scan happens on
every platform.  On a non-Windows platform (`os.name = "posix"`) where the
lookup command fails, the `PATH` directory `/opt/tools` contains the
executable (under both the bare and the `.exe` name) and no fallback path
exists, the locator nevertheless raises `FFmpegNotFoundError`: the scan of
lines 102–110 is guarded by `os.name == 'nt'`. -/
theorem c3_posix_skips_path_scan :
    find_ffmpeg [("/opt/tools/ffmpeg", 0), ("/opt/tools/ffmpeg.exe", 0)] "posix"
        (.error ()) ["/opt/tools"] "/home/user" =
      .error (ffmpeg_not_found_msg ["/opt/tools"]) ∧
    FS.existsPath [("/opt/tools/ffmpeg", 0), ("/opt/tools/ffmpeg.exe", 0)]
      "/opt/tools/ffmpeg" = true ∧
    FS.existsPath [("/opt/tools/ffmpeg", 0), ("/opt/tools/ffmpeg.exe", 0)]
      "/opt/tools/ffmpeg.exe" = true :=
  ⟨rfl, rfl, rfl⟩

/-- C3 amended: when the lookup command yields no existing path, the
locator scans the `PATH` directories for `ffmpeg.exe` only on Windows
(`os.name == 'nt'`); on every platform it then scans the fixed fallback
list; it returns the first existing candidate in that order and raises
`FFmpegNotFoundError` carrying the `PATH` listing only when every scanned
candidate is absent. -/
theorem c3_locator_fallback_order (fs : FS) (os_name : String)
    (which_out : Except Unit String) (path_env : List String) (cwd : String)
    (hwhich : which_first_existing fs os_name which_out = none) :
    find_ffmpeg fs os_name which_out path_env cwd =
      match ((if os_name == "nt" then
            path_env.map (fun d => stripQuotes d ++ "\\ffmpeg.exe") else []) ++
          common_paths os_name cwd).find? (fun p => FS.existsPath fs p) with
      | some p => Except.ok p
      | none => Except.error (ffmpeg_not_found_msg path_env) := by
  rw [find_ffmpeg, hwhich]
  by_cases hnt : (os_name == "nt") = true
  · simp only [hnt, if_true, pathenv_scan_eq, List.find?_append]
    cases hfind : (path_env.map fun d => stripQuotes d ++ "\\ffmpeg.exe").find?
        (fun c => FS.existsPath fs c) with
    | some q => simp [hfind, Option.or]
    | none =>
      cases hcommon : (common_paths os_name cwd).find? (fun p => FS.existsPath fs p) <;>
        simp [hfind, hcommon, Option.or]
  · have hnt2 : (os_name == "nt") = false := by
      cases hb : (os_name == "nt") with
      | false => rfl
      | true => exact absurd hb hnt
    simp only [hnt2, if_false, Bool.false_eq_true, List.nil_append]

/-- C3 witness: the amended theorem applied on Windows, where the `PATH`
scan does run and finds the executable. -/
theorem c3_locator_fallback_order_witness :
    find_ffmpeg [("C:\\tools\\ffmpeg.exe", 0)] "nt" (.error ()) ["C:\\tools"] "C:\\w" =
      match ((if ("nt" == "nt") then
            ["C:\\tools"].map (fun d => stripQuotes d ++ "\\ffmpeg.exe") else []) ++
          common_paths "nt" "C:\\w").find?
          (fun p => FS.existsPath [("C:\\tools\\ffmpeg.exe", 0)] p) with
      | some p => Except.ok p
      | none => Except.error (ffmpeg_not_found_msg ["C:\\tools"]) :=
  c3_locator_fallback_order [("C:\\tools\\ffmpeg.exe", 0)] "nt" (.error ())
    ["C:\\tools"] "C:\\w" (by decide)

/-- C4: With `out.mp4` and `out_1.mp4` both existing and `out_2.mp4` free,
the transcode call resolves the output to `out_2.mp4`; in general, for
every existing requested output path the resolved path is the stem suffixed
with `_k` (same parent and extension) for the smallest positive `k` whose
path does not exist. -/
theorem c4_collision_policy :
    ((encode_plan [("in.mov", 0), ("out.mp4", 0), ("out_1.mp4", 0)] "/usr/bin/ffmpeg"
        "in.mov" ⟨".", "out", ".mp4"⟩ 32 4 "medium" false).map
      EncodePlan.resolved_output).toOption = some "out_2.mp4" ∧
    ∀ (fs : FS) (out : PyPath), FS.existsPath fs (PyPath.render out) = true →
      ∃ k, 1 ≤ k ∧ resolve_output_path fs out = candidate out k ∧
        FS.existsPath fs (candidate out k) = false ∧
        ∀ j, 1 ≤ j → j < k → FS.existsPath fs (candidate out j) = true :=
  ⟨rfl, fun fs out hex => resolve_output_path_least fs out hex⟩

/-- C4 witness: the general law applied to a filesystem where the requested
output itself exists. -/
theorem c4_collision_policy_witness :
    ∃ k, 1 ≤ k ∧
      resolve_output_path [("x.mkv", 7)] ⟨".", "x", ".mkv"⟩ =
        candidate ⟨".", "x", ".mkv"⟩ k ∧
      FS.existsPath [("x.mkv", 7)] (candidate ⟨".", "x", ".mkv"⟩ k) = false ∧
      ∀ j, 1 ≤ j → j < k →
        FS.existsPath [("x.mkv", 7)] (candidate ⟨".", "x", ".mkv"⟩ j) = true :=
  c4_collision_policy.2 [("x.mkv", 7)] ⟨".", "x", ".mkv"⟩ (by decide)
